import Mathlib

/-!
Verification of the chat session controller of the RAG chatbot widget
(Docusaurus site of the Physical AI / Humanoid Robotics textbook).

The development shallowly embeds the TypeScript sources:

* `types.ts` — the `Message`, `Source`, `ChatResponse`, `ChatError` records;
* `useChat` (hooks/useChat.ts) — session state, `sendMessage`, `clearMessages`;
* `ChatAPI.sendQuery` (utils/api.ts) — the backend gateway call and its
  error-message derivation;
* `ChatProvider.tsx` — persistence (`persistMessages`, the `useEffect`
  observer, `clearHistory`) and seeding from stored history;
* `ChatInput.tsx` / `ChatPanel.tsx` — the `handleSend` guard wired to the
  `isLoading` busy flag;
* `useChatContext.ts` — the context-access guard.

React state updates become explicit state passing; the single JS event loop
justifies modelling one `send` as an atomic function of the gateway outcome.
Fresh UUIDs and `Date.now()` timestamps are supplied as parameters; the
gateway is an oracle `String → Except Thrown ChatResponse` together with the
list of queries actually issued, so "no gateway call" is expressible.
-/

namespace RagChat

/-- A citation record (`types.ts`, interface `Source`).  `chapter` is the
only optional field. -/
structure Source where
  title : String
  url : String
  module : String
  chapter : Option String
  deriving Repr, DecidableEq

/-- The role of a conversation turn (`types.ts`, `role: 'user' | 'assistant'`). -/
inductive Role where
  | user
  | assistant
  deriving Repr, DecidableEq

/-- One conversation turn (`types.ts`, interface `Message`).  `sources` is
optional and present only on assistant turns from a successful call. -/
structure Message where
  id : String
  role : Role
  content : String
  timestamp : Nat
  sources : Option (List Source)
  deriving Repr, DecidableEq

/-- The state owned by the `useChat` hook: the in-memory message log, the
`isLoading` busy flag and the `error` slot. -/
structure ChatState where
  messages : List Message
  isLoading : Bool
  error : Option String
  deriving Repr, DecidableEq

/-- The successful gateway payload (`types.ts`, interface `ChatResponse`). -/
structure ChatResponse where
  response : String
  sources : List Source
  deriving Repr, DecidableEq

/-- The structured failure body of a non-ok gateway response (`types.ts`,
interface `ChatError`). -/
structure ChatError where
  error : String
  code : String
  deriving Repr, DecidableEq

/-- A JavaScript thrown value as `useChat` discriminates it:
either an `Error` carrying a `message`, or any other thrown value. -/
inductive Thrown where
  | error (message : String)
  | nonError
  deriving Repr, DecidableEq

/-- The possible outcomes of the `fetch` inside `ChatAPI.sendQuery`:
an ok response whose body parses as `ChatResponse`; a non-ok response whose
body parses as `ChatError`; or the fetch/parse itself throwing. -/
inductive FetchOutcome where
  | ok (data : ChatResponse)
  | notOk (errorData : ChatError)
  | threw (t : Thrown)
  deriving Repr, DecidableEq

/-- `ChatAPI.sendQuery` (utils/api.ts).  On a non-ok response it throws
`new Error(errorData.error || 'Failed to get response')` — the empty string
is falsy in JS, hence the fallback exactly when `errorData.error = ""`.
The surrounding catch logs and rethrows, so it is the identity on failures.
The `query` argument only populates the request body and does not affect the
outcome, which is determined by the network (`fo`). -/
def ChatAPI.sendQuery (query : String) (fo : FetchOutcome) :
    Except Thrown ChatResponse :=
  let _ := query
  match fo with
  | .ok data => .ok data
  | .notOk errorData =>
      .error (.error (if errorData.error = "" then "Failed to get response"
                      else errorData.error))
  | .threw t => .error t

/-- The error-message derivation in `useChat.sendMessage`:
`err instanceof Error ? err.message : 'Failed to send message'`. -/
def errorMessageFrom (err : Thrown) : String :=
  match err with
  | .error m => m
  | .nonError => "Failed to send message"

/-- `useChat.sendMessage` (hooks/useChat.ts).  Sets `isLoading`, clears
`error`, appends the user turn, calls the gateway with `content`, appends
either the assistant turn (success) or the synthesized apology turn plus
`error` (failure), and finally clears `isLoading` on every path.
`userId`/`assistantId` are the two fresh UUIDs, `t1`/`t2` the two
`Date.now()` readings.  Returns the new state and the list of gateway
queries issued (always exactly one). -/
def sendMessage (content userId assistantId : String) (t1 t2 : Nat)
    (gw : String → Except Thrown ChatResponse) (s : ChatState) :
    ChatState × List String :=
  let s1 : ChatState := { s with isLoading := true, error := none }
  let userMessage : Message :=
    { id := userId, role := .user, content := content, timestamp := t1,
      sources := none }
  let s2 : ChatState := { s1 with messages := s1.messages ++ [userMessage] }
  let s3 : ChatState :=
    match gw content with
    | .ok response =>
        let assistantMessage : Message :=
          { id := assistantId, role := .assistant,
            content := response.response, timestamp := t2,
            sources := some response.sources }
        { s2 with messages := s2.messages ++ [assistantMessage] }
    | .error err =>
        let errorMessage := errorMessageFrom err
        let errorMsg : Message :=
          { id := assistantId, role := .assistant,
            content := "Sorry, I encountered an error: " ++ errorMessage ++
              ". Please try again.",
            timestamp := t2, sources := none }
        { s2 with error := some errorMessage,
                  messages := s2.messages ++ [errorMsg] }
  ({ s3 with isLoading := false }, [content])

/-- `useChat.clearMessages`: `setMessages([]); setError(null)`.
It does not touch `isLoading`. -/
def clearMessages (s : ChatState) : ChatState :=
  { s with messages := [], error := none }

/-- The initial state of `useChat(initialMessages)`. -/
def useChatInit (initialMessages : List Message) : ChatState :=
  { messages := initialMessages, isLoading := false, error := none }

/-- `MAX_STORED_MESSAGES` in ChatProvider.tsx. -/
def MAX_STORED_MESSAGES : Nat := 50

/-- `ChatProvider.persistMessages`: `msgs.slice(-MAX_STORED_MESSAGES)`.
JS `slice(-n)` starts at `max(length - n, 0)`, which is exactly
`List.drop` at the truncated `Nat` subtraction `length - n`. -/
def persistMessages (msgs : List Message) : List Message :=
  msgs.drop (msgs.length - MAX_STORED_MESSAGES)

/-- The state of `ChatProvider`: panel flag, the `useLocalStorage`-backed
stored snapshot, and the `useChat` state. -/
structure ProviderState where
  isOpen : Bool
  storedMessages : List Message
  chat : ChatState
  deriving Repr, DecidableEq

/-- The persistence `useEffect` in ChatProvider.tsx: whenever `messages`
changes, `if (messages.length > 0) persistMessages(messages)`.
Writing replaces the stored snapshot wholesale (spec §6: "writing replaces
the value wholesale"; the `useLocalStorage` hook itself is not among the
provided sources). -/
def persistEffect (p : ProviderState) : ProviderState :=
  if p.chat.messages.length > 0 then
    { p with storedMessages := persistMessages p.chat.messages }
  else p

/-- `ChatProvider.sendMessage`: awaits `useChat.sendMessage`, after which the
persistence effect observes the changed log.  The effect also fires at the
intermediate render after the user turn is appended, but the final firing
after settle overwrites that write, so the settled state is as composed
here. -/
def providerSendMessage (content userId assistantId : String) (t1 t2 : Nat)
    (gw : String → Except Thrown ChatResponse) (p : ProviderState) :
    ProviderState × List String :=
  let r := sendMessage content userId assistantId t1 t2 gw p.chat
  (persistEffect { p with chat := r.1 }, r.2)

/-- `ChatProvider.clearHistory`: `clearMessages(); setStoredMessages([]);
setError(null)`.  Afterwards the persistence effect observes the now-empty
log (and, its guard failing, writes nothing). -/
def clearHistory (p : ProviderState) : ProviderState :=
  let chat1 := clearMessages p.chat
  let chat2 : ChatState := { chat1 with error := none }
  persistEffect { p with chat := chat2, storedMessages := [] }

/-- Modelled from the spec: the `useLocalStorage` hook
(hooks/useLocalStorage.ts) is not among the provided sources.  Spec §6:
"Reading an absent or unparsable value yields an empty sequence"; §4.3:
"Malformed or missing stored data is treated as no history".  `none` stands
for an absent or unparsable stored value. -/
def readStoredValue (raw : Option (List Message)) : List Message :=
  raw.getD []

/-- `ChatProvider` initialization: `useLocalStorage(STORAGE_KEY, [])` reads
the stored snapshot, and `useChat(storedMessages)` seeds the in-memory log
verbatim from it.  `isOpen` starts false. -/
def chatProviderInit (raw : Option (List Message)) : ProviderState :=
  let stored := readStoredValue raw
  { isOpen := false, storedMessages := stored, chat := useChatInit stored }

/-- JavaScript `String.prototype.trim`: strip leading and trailing
whitespace.  Written over the character list so that it evaluates by
kernel reduction. -/
def jsTrim (s : String) : String :=
  ⟨((s.data.dropWhile Char.isWhitespace).reverse.dropWhile
      Char.isWhitespace).reverse⟩

/-- `ChatInput.handleSend` (ChatInput.tsx): trims the input and, only when
the trimmed text is non-empty ("truthy") and the input is not disabled,
calls `onSend(trimmed)` and resets the input.  `onSend` is the provider's
send.  Returns the input-field value, the provider state and the gateway
queries issued. -/
def handleSend (input : String) (disabled : Bool)
    (userId assistantId : String) (t1 t2 : Nat)
    (gw : String → Except Thrown ChatResponse) (p : ProviderState) :
    String × ProviderState × List String :=
  let trimmed := jsTrim input
  if !trimmed.isEmpty && !disabled then
    let r := providerSendMessage trimmed userId assistantId t1 t2 gw p
    ("", r.1, r.2)
  else
    (input, p, [])

/-- The send path as wired by `ChatPanel.tsx`:
`<ChatInput onSend={sendMessage} disabled={isLoading} />` — the input's
`disabled` flag is exactly the session's `isLoading` busy flag. -/
def chatPanelSend (input userId assistantId : String) (t1 t2 : Nat)
    (gw : String → Except Thrown ChatResponse) (p : ProviderState) :
    String × ProviderState × List String :=
  handleSend input p.chat.isLoading userId assistantId t1 t2 gw p

/-- The context value surface of `types.ts` (`ChatState` fields) as stored
in the React context; the action closures are not part of the compared
data. -/
structure ChatContextValue where
  messages : List Message
  isOpen : Bool
  isLoading : Bool
  error : Option String
  deriving Repr, DecidableEq

/-- `useChatContext` (useChatContext.ts): throws when the context is
`undefined` (no provider above), otherwise returns the context value
unchanged. -/
def useChatContext (context : Option ChatContextValue) :
    Except String ChatContextValue :=
  match context with
  | none => .error "useChatContext must be used within a ChatProvider"
  | some c => .ok c

/-- The per-send data of one sequential send: content, the two fresh ids,
the two timestamps, and the gateway outcome for this send. -/
structure SendInput where
  content : String
  userId : String
  assistantId : String
  t1 : Nat
  t2 : Nat
  outcome : Except Thrown ChatResponse

/-- The user turn a send appends, as `sendMessage` constructs it. -/
def mkUserTurn (sd : SendInput) : Message :=
  { id := sd.userId, role := .user, content := sd.content,
    timestamp := sd.t1, sources := none }

/-- The single response turn a send appends after settling: the assistant
turn on success, the synthesized apology turn on failure — in both cases an
assistant-role turn, as `sendMessage` constructs it. -/
def mkResponseTurn (sd : SendInput) : Message :=
  match sd.outcome with
  | .ok response =>
      { id := sd.assistantId, role := .assistant,
        content := response.response, timestamp := sd.t2,
        sources := some response.sources }
  | .error err =>
      { id := sd.assistantId, role := .assistant,
        content := "Sorry, I encountered an error: " ++
          errorMessageFrom err ++ ". Please try again.",
        timestamp := sd.t2, sources := none }

/-- A sequence of sends, each settling before the next is issued: the fold
of `sendMessage` over the send records. -/
def runSends (sends : List SendInput) (s : ChatState) : ChatState :=
  sends.foldl
    (fun st sd =>
      (sendMessage sd.content sd.userId sd.assistantId sd.t1 sd.t2
        (fun _ => sd.outcome) st).1)
    s

/-- The last `min n (length l)` elements of `l` in original order, phrased
as the spec does (tail of the log), independently of the `slice` idiom. -/
def lastMinN (n : Nat) (l : List Message) : List Message :=
  (l.reverse.take n).reverse

/-- A sample session state with one in-flight send, used by witnesses. -/
def busyProvider : ProviderState :=
  { isOpen := true, storedMessages := [],
    chat := { messages := [], isLoading := true, error := none } }

/-- A sample idle session state, used by witnesses. -/
def idleProvider : ProviderState :=
  { isOpen := true, storedMessages := [],
    chat := { messages := [], isLoading := false, error := none } }

/-! ## Helper lemmas -/

/-- One settled `sendMessage` appends exactly the user turn and its single
response turn to the log, whatever the gateway outcome. -/
theorem sendMessage_messages_eq (sd : SendInput) (s : ChatState) :
    ((sendMessage sd.content sd.userId sd.assistantId sd.t1 sd.t2
        (fun _ => sd.outcome) s).1).messages
      = s.messages ++ [mkUserTurn sd, mkResponseTurn sd] := by
  cases h : sd.outcome with
  | ok response => simp [sendMessage, mkUserTurn, mkResponseTurn, h]
  | error err => simp [sendMessage, mkUserTurn, mkResponseTurn, h]

/-! ## Claim theorems -/

/-- C1: while a send is in flight (`isLoading` is true, hence the input's
`disabled` flag is set), a second invocation of the send path is a no-op for
every content string: the input field keeps its text, the provider state
(log, busy flag, error slot, stored snapshot) is unchanged, and no gateway
query is issued. -/
theorem send_while_busy_is_noop (input userId assistantId : String)
    (t1 t2 : Nat) (gw : String → Except Thrown ChatResponse)
    (p : ProviderState) (h : p.chat.isLoading = true) :
    chatPanelSend input userId assistantId t1 t2 gw p = (input, p, []) := by
  simp [chatPanelSend, handleSend, h]

/-- Witness for C1 at a concrete busy state and content string. -/
theorem send_while_busy_is_noop_witness :
    chatPanelSend "What is ROS 2?" "u1" "a1" 1 2
        (fun _ => Except.error Thrown.nonError) busyProvider
      = ("What is ROS 2?", busyProvider, []) :=
  send_while_busy_is_noop "What is ROS 2?" "u1" "a1" 1 2
    (fun _ => Except.error Thrown.nonError) busyProvider rfl

/-- C2: an input that trims to the empty string is silently dropped by the
send path: no turn is created, no gateway query is issued, and the whole
session state — `isLoading` included — is unchanged. -/
theorem send_blank_is_noop (input userId assistantId : String)
    (t1 t2 : Nat) (gw : String → Except Thrown ChatResponse)
    (p : ProviderState) (h : jsTrim input = "") :
    chatPanelSend input userId assistantId t1 t2 gw p = (input, p, []) := by
  simp [chatPanelSend, handleSend, h]
  intro hc
  exact absurd hc (by decide)

/-- Witness for C2 at the whitespace-only input of the spec example. -/
theorem send_blank_is_noop_witness :
    chatPanelSend "   " "u1" "a1" 1 2
        (fun _ => Except.error Thrown.nonError) idleProvider
      = ("   ", idleProvider, []) :=
  send_blank_is_noop "   " "u1" "a1" 1 2
    (fun _ => Except.error Thrown.nonError) idleProvider (by decide)

/-- C3: after `sendMessage` settles, `isLoading` is false for every gateway
outcome — success or any thrown value — because the `finally` block clears
the flag on every exit path. -/
theorem send_clears_busy_flag (content userId assistantId : String)
    (t1 t2 : Nat) (gw : String → Except Thrown ChatResponse)
    (s : ChatState) :
    ((sendMessage content userId assistantId t1 t2 gw s).1).isLoading
      = false := by
  cases h : gw content with
  | ok response => simp [sendMessage, h]
  | error err => simp [sendMessage, h]

/-- C4: when the gateway fails — a non-ok response or a thrown value — the
settled state appends exactly the user turn followed by one synthesized
assistant turn whose content is the fixed apology template around the
derived message; `error` holds exactly that message; the message is the
failure's own text when it carries one (a thrown `Error`, or a response
body with a non-empty `error` field) and a generic fallback otherwise. -/
theorem send_failure_appends_apology (content userId assistantId : String)
    (t1 t2 : Nat) (fo : FetchOutcome) (err : Thrown) (s : ChatState)
    (h : ChatAPI.sendQuery content fo = Except.error err) :
    ((sendMessage content userId assistantId t1 t2
        (fun q => ChatAPI.sendQuery q fo) s).1).messages
      = s.messages ++
        [{ id := userId, role := Role.user, content := content,
           timestamp := t1, sources := none },
         { id := assistantId, role := Role.assistant,
           content := "Sorry, I encountered an error: " ++
             errorMessageFrom err ++ ". Please try again.",
           timestamp := t2, sources := none }] ∧
    ((sendMessage content userId assistantId t1 t2
        (fun q => ChatAPI.sendQuery q fo) s).1).error
      = some (errorMessageFrom err) ∧
    (match fo with
     | FetchOutcome.ok _ => True
     | FetchOutcome.notOk errorData =>
         errorMessageFrom err
           = (if errorData.error = "" then "Failed to get response"
              else errorData.error)
     | FetchOutcome.threw (Thrown.error m) => errorMessageFrom err = m
     | FetchOutcome.threw Thrown.nonError =>
         errorMessageFrom err = "Failed to send message") := by
  cases fo with
  | ok data => simp [ChatAPI.sendQuery] at h
  | notOk errorData =>
      simp [ChatAPI.sendQuery] at h
      subst h
      refine ⟨?_, ?_, ?_⟩ <;>
        simp [sendMessage, ChatAPI.sendQuery, errorMessageFrom]
  | threw t =>
      simp [ChatAPI.sendQuery] at h
      subst h
      cases t <;> refine ⟨?_, ?_, ?_⟩ <;>
        simp [sendMessage, ChatAPI.sendQuery, errorMessageFrom]

/-- Witness for C4 at the spec's example failure: a non-ok response with
body `{error: "rate limited", code: "429"}` sent from an empty session. -/
theorem send_failure_appends_apology_witness :
    ((sendMessage "trigger failure" "u1" "a1" 1 2
        (fun q => ChatAPI.sendQuery q
          (FetchOutcome.notOk { error := "rate limited", code := "429" }))
        (useChatInit [])).1).messages
      = [{ id := "u1", role := Role.user, content := "trigger failure",
           timestamp := 1, sources := none },
         { id := "a1", role := Role.assistant,
           content := "Sorry, I encountered an error: rate limited. Please try again.",
           timestamp := 2, sources := none }] ∧
    ((sendMessage "trigger failure" "u1" "a1" 1 2
        (fun q => ChatAPI.sendQuery q
          (FetchOutcome.notOk { error := "rate limited", code := "429" }))
        (useChatInit [])).1).error
      = some "rate limited" := by
  have h := send_failure_appends_apology "trigger failure" "u1" "a1" 1 2
    (FetchOutcome.notOk { error := "rate limited", code := "429" })
    (Thrown.error "rate limited") (useChatInit []) rfl
  exact ⟨h.1, h.2.1⟩

/-- `persistMessages` (the `slice(-50)` idiom) computes exactly the last
`min 50 (length)` turns of the log in original order. -/
theorem persistMessages_eq_lastMinN (msgs : List Message) :
    persistMessages msgs = lastMinN MAX_STORED_MESSAGES msgs := by
  rw [lastMinN, ← List.rtake_eq_reverse_take_reverse]
  rfl

/-- C5: whenever the in-memory log is non-empty, the persistence effect
leaves the stored snapshot equal to the last `min 50 (length)` turns of the
log: its length is `min 50 (length)` and it is a suffix of the log in
original order (so past the cap it is exactly the most recent 50 turns). -/
theorem persisted_snapshot_is_recent_tail (p : ProviderState)
    (h : p.chat.messages ≠ []) :
    (persistEffect p).storedMessages
        = lastMinN MAX_STORED_MESSAGES p.chat.messages ∧
    (persistEffect p).storedMessages.length
        = min MAX_STORED_MESSAGES p.chat.messages.length ∧
    p.chat.messages.take (p.chat.messages.length - MAX_STORED_MESSAGES)
        ++ (persistEffect p).storedMessages = p.chat.messages := by
  have hlen : 0 < p.chat.messages.length := List.length_pos.mpr h
  have he : persistEffect p
      = { p with storedMessages := persistMessages p.chat.messages } := by
    simp [persistEffect, hlen]
  rw [he]
  refine ⟨persistMessages_eq_lastMinN _, ?_, ?_⟩
  · simp only [persistMessages, List.length_drop]
    omega
  · exact List.take_append_drop
      (p.chat.messages.length - MAX_STORED_MESSAGES) p.chat.messages

/-- A sample turn used by witnesses. -/
def sampleTurn : Message :=
  { id := "m1", role := Role.user, content := "hi", timestamp := 3,
    sources := none }

/-- A sample one-turn session used by the C5 witness. -/
def sampleLoadedProvider : ProviderState :=
  { isOpen := false, storedMessages := [],
    chat := { messages := [sampleTurn], isLoading := false, error := none } }

/-- Witness for C5 at a concrete non-empty one-turn log. -/
theorem persisted_snapshot_is_recent_tail_witness :
    sampleLoadedProvider.chat.messages ≠ [] ∧
    ((persistEffect sampleLoadedProvider).storedMessages
        = lastMinN MAX_STORED_MESSAGES sampleLoadedProvider.chat.messages ∧
      (persistEffect sampleLoadedProvider).storedMessages.length
        = min MAX_STORED_MESSAGES sampleLoadedProvider.chat.messages.length ∧
      sampleLoadedProvider.chat.messages.take
          (sampleLoadedProvider.chat.messages.length - MAX_STORED_MESSAGES)
        ++ (persistEffect sampleLoadedProvider).storedMessages
        = sampleLoadedProvider.chat.messages) :=
  ⟨by decide, persisted_snapshot_is_recent_tail sampleLoadedProvider (by decide)⟩

/-- The user turn of a send has the user role and carries the sent
content; the response turn always has the assistant role. -/
theorem mkResponseTurn_role (sd : SendInput) :
    (mkResponseTurn sd).role = Role.assistant := by
  cases h : sd.outcome <;> simp [mkResponseTurn, h]

/-- Sequential sends from any starting state append their user/response
pairs in issue order. -/
theorem runSends_messages_eq (sends : List SendInput) (s : ChatState) :
    (runSends sends s).messages
      = s.messages
        ++ sends.flatMap (fun sd => [mkUserTurn sd, mkResponseTurn sd]) := by
  induction sends generalizing s with
  | nil => simp [runSends]
  | cons sd rest ih =>
      have hstep : runSends (sd :: rest) s
          = runSends rest
              ((sendMessage sd.content sd.userId sd.assistantId sd.t1 sd.t2
                (fun _ => sd.outcome) s).1) := rfl
      rw [hstep, ih, sendMessage_messages_eq]
      simp

/-- C6: for every sequence of sends, each settling before the next is
issued, the log from an empty session is exactly the user/response pairs of
the sends in issue order — so each user turn is immediately followed by its
single response turn, and the roles alternate user, assistant, user,
assistant, …. -/
theorem sequential_sends_alternate (sends : List SendInput) :
    (runSends sends (useChatInit [])).messages
      = sends.flatMap (fun sd => [mkUserTurn sd, mkResponseTurn sd]) ∧
    (runSends sends (useChatInit [])).messages.map Message.role
      = sends.flatMap (fun _ => [Role.user, Role.assistant]) := by
  have h := runSends_messages_eq sends (useChatInit [])
  constructor
  · simpa [useChatInit] using h
  · rw [h]
    simp [useChatInit, List.map_flatMap, mkUserTurn, mkResponseTurn_role]

/-- C7: after `clearHistory` the in-memory log is empty, the error slot is
clear, the stored snapshot is the empty sequence, a reload from that
snapshot seeds an empty log, and clearing again from the cleared state
changes nothing (idempotence). -/
theorem clear_history_semantics (p : ProviderState) :
    (clearHistory p).chat.messages = [] ∧
    (clearHistory p).chat.error = none ∧
    (clearHistory p).storedMessages = [] ∧
    (chatProviderInit (some (clearHistory p).storedMessages)).chat.messages
      = [] ∧
    clearHistory (clearHistory p) = clearHistory p := by
  refine ⟨rfl, rfl, rfl, rfl, ?_⟩
  simp [clearHistory, clearMessages, persistEffect]

/-- C8: a log of at most 50 turns passes through the write-time truncation
unchanged, and seeding a new session from the stored snapshot is verbatim —
write-then-reload restores the identical ordered turn sequence (ids, roles,
content, timestamps, sources) with no further trimming at load. -/
theorem persistence_round_trip (log : List Message)
    (h : log.length ≤ MAX_STORED_MESSAGES) :
    persistMessages log = log ∧
    (chatProviderInit (some (persistMessages log))).chat.messages = log := by
  have h0 : log.length - MAX_STORED_MESSAGES = 0 := by omega
  have h1 : persistMessages log = log := by
    rw [persistMessages, h0, List.drop_zero]
  exact ⟨h1, by simp [chatProviderInit, readStoredValue, useChatInit, h1]⟩

/-- Witness for C8 at a concrete one-turn log, well under the cap. -/
theorem persistence_round_trip_witness :
    [sampleTurn].length ≤ MAX_STORED_MESSAGES ∧
    (persistMessages [sampleTurn] = [sampleTurn] ∧
      (chatProviderInit (some (persistMessages [sampleTurn]))).chat.messages
        = [sampleTurn]) :=
  ⟨by decide, persistence_round_trip [sampleTurn] (by decide)⟩

/-- C9: `useChatContext` throws the fixed error when no provider supplied a
context value (the context is `undefined`), and returns the provider's
context value unchanged when one is present. -/
theorem use_chat_context_guard :
    useChatContext none
      = Except.error "useChatContext must be used within a ChatProvider" ∧
    ∀ c : ChatContextValue, useChatContext (some c) = Except.ok c :=
  ⟨rfl, fun _ => rfl⟩

/-- A session whose log is empty while a previous snapshot is still stored,
used by the C10 witness. -/
def staleProvider : ProviderState :=
  { isOpen := false, storedMessages := [sampleTurn],
    chat := { messages := [], isLoading := false, error := none } }

/-- C10: the persistence effect is a no-op whenever the in-memory log is
empty — the stored snapshot (indeed the whole provider state) is untouched,
so the persisted history is replaced by an empty sequence only through the
explicit clear action, never by the observer effect. -/
theorem persist_effect_skips_empty_log (p : ProviderState)
    (h : p.chat.messages = []) :
    persistEffect p = p := by
  simp [persistEffect, h]

/-- Witness for C10: an empty log with a non-empty stored snapshot, which
the effect leaves in place. -/
theorem persist_effect_skips_empty_log_witness :
    staleProvider.chat.messages = [] ∧
    persistEffect staleProvider = staleProvider :=
  ⟨rfl, persist_effect_skips_empty_log staleProvider rfl⟩

end RagChat
